import Mathlib

/-
  Verification of the two operator scripts of the PostgreSQL-Docker repository:
  scripts/backup_postgres.py and scripts/restore_postgres_safe.py.

  The scripts are linear sequences of prints, filesystem operations and external
  subprocess invocations.  We embed each script as a pure function from an
  environment record (capturing what the host and the external processes do:
  file existence, exceptions raised, return codes and stderr text of each
  subprocess) to the ordered trace of observable events it performs together
  with the process exit status.  Python strings and byte streams are modelled
  as Lean strings; process return codes as integers.
-/

namespace PgDocker

/-- Outcome of one external process invocation, as observed through the
subprocess module: return code, captured standard output and standard error. -/
structure ProcResult where
  returncode : Int
  stdout : String
  stderr : String
deriving DecidableEq

/-- Observable events a script run can perform, in order.  The file-mutation
events (write, truncate, remove, rename) are part of the vocabulary so that
frame properties ("the file is not touched further") can be stated; the
embedded scripts never emit them outside the initial open. -/
inductive Event where
  | print (msg : String)
  | makedirs (dir : String)
  | openFile (path : String) (mode : String)
  | closeFile (path : String)
  | runProc (argv : List String)
  | popen (argv : List String) (stdinFrom : Option String) (stdoutTo : Option String)
  | fileWrite (path : String)
  | fileTruncate (path : String)
  | fileRemove (path : String)
  | fileRename (src : String) (dst : String)
deriving DecidableEq

/-- Whether an event is an external subprocess invocation (subprocess.run or
subprocess.Popen). -/
def Event.isSubproc : Event → Bool
  | .runProc _ => true
  | .popen _ _ _ => true
  | _ => false

/-- Whether an event mutates the file at path p after it has been written:
a write, truncate, removal, or a rename involving p. -/
def Event.modifiesPath (p : String) : Event → Bool
  | .fileWrite q => p == q
  | .fileTruncate q => p == q
  | .fileRemove q => p == q
  | .fileRename q r => p == q || p == r
  | _ => false

/-- Bool test for the Python substring operator (pat in s), checking whether
pat occurs contiguously, by testing pat against every suffix. -/
def substrOccurs (pat : List Char) : List Char → Bool
  | [] => pat.isPrefixOf []
  | c :: cs => pat.isPrefixOf (c :: cs) || substrOccurs pat cs

/-- Python str.strip(): remove leading and trailing whitespace.  (Python
strips the full Unicode whitespace class; the diagnostics handled here only
carry ASCII whitespace, covered by Char.isWhitespace.) -/
def pyStrip (s : String) : String :=
  String.mk (((s.data.dropWhile Char.isWhitespace).reverse.dropWhile Char.isWhitespace).reverse)

/-- Split a character list at every occurrence of c; the pieces do not contain
c and there is one more piece than occurrences of c. -/
def splitOnChar (c : Char) : List Char → List (List Char)
  | [] => [[]]
  | x :: xs =>
      match splitOnChar c xs with
      | [] => [[]]
      | r :: rs => if x = c then [] :: r :: rs else (x :: r) :: rs

/-- Python str.splitlines(): the lines of the text, a trailing line break
producing no extra empty entry and the empty string producing no lines.
(Python also breaks on \r and other line separators; the diagnostics handled
here only carry \n.) -/
def splitlines (s : String) : List String :=
  if s.data = [] then []
  else
    let parts := splitOnChar '\n' s.data
    (if parts.getLast? = some [] then parts.dropLast else parts).map fun l => String.mk l

/-- Python newline.join(ls): the strings joined with a newline between
consecutive entries. -/
def joinNL : List String → String
  | [] => ""
  | [s] => s
  | s :: rest => s ++ "\n" ++ joinNL rest

/-- A wall-clock instant as produced by datetime.now(): the six fields the
timestamp format of the backup script reads. -/
structure DateTime where
  year : Nat
  month : Nat
  day : Nat
  hour : Nat
  minute : Nat
  second : Nat
deriving DecidableEq

/-- The ranges datetime guarantees for its fields (datetime.MINYEAR = 1,
datetime.MAXYEAR = 9999, months 1..12, days 1..31, hours 0..23,
minutes and seconds 0..59). -/
def DateTime.Valid (t : DateTime) : Prop :=
  1 ≤ t.year ∧ t.year ≤ 9999 ∧ 1 ≤ t.month ∧ t.month ≤ 12 ∧
  1 ≤ t.day ∧ t.day ≤ 31 ∧ t.hour ≤ 23 ∧ t.minute ≤ 59 ∧ t.second ≤ 59

instance (t : DateTime) : Decidable t.Valid := by
  unfold DateTime.Valid
  infer_instance

/-- Decimal digit list of n, most significant first (empty for 0); the first
argument is structural fuel, always called with fuel ≥ n. -/
def decDigitsAux : Nat → Nat → List Char
  | 0, _ => []
  | fuel + 1, n => if n = 0 then [] else decDigitsAux fuel (n / 10) ++ [Nat.digitChar (n % 10)]

/-- Decimal rendering of a natural number, as the C library and CPython render
the numeric strftime fields before padding. -/
def decRepr (n : Nat) : String :=
  if n = 0 then "0" else String.mk (decDigitsAux n n)

/-- Left-pad a string with zeros to width w, as strftime pads its numeric
fields. -/
def zfill (w : Nat) (s : String) : String :=
  String.mk (List.replicate (w - s.length) '0') ++ s

/-- A two-digit zero-padded field (strftime %m, %d, %H, %M, %S). -/
def pad2 (n : Nat) : String := zfill 2 (decRepr n)

/-- A four-digit zero-padded field (strftime %Y as documented by CPython:
0001, 0002, ..., 2013). -/
def pad4 (n : Nat) : String := zfill 4 (decRepr n)

/-- datetime.now().strftime of the format string used by the backup script:
year, month, day, an underscore, hour, minute, second. -/
def strftimeTimestamp (t : DateTime) : String :=
  pad4 t.year ++ pad2 t.month ++ pad2 t.day ++ "_" ++
  pad2 t.hour ++ pad2 t.minute ++ pad2 t.second

/-! Embedding of scripts/backup_postgres.py. -/

namespace BackupScript

/-- Configuration constant of backup_postgres.py. -/
def CONTAINER_NAME : String := "system-postgres"

/-- Configuration constant of backup_postgres.py. -/
def DB_USER : String := "postgres"

/-- Configuration constant of backup_postgres.py. -/
def DB_NAME : String := "postgres"

/-- Configuration constant of backup_postgres.py. -/
def BACKUP_DIR : String := "./backups"

/-- Configuration constant of backup_postgres.py: c for custom (compressed),
p for plain text. -/
def FORMAT : String := "c"

/-- Environment of one run of backup_database: what the host filesystem and
the external pg_dump process do. -/
structure Env where
  /-- os.path.exists(BACKUP_DIR) -/
  dirExists : Bool
  /-- some e when os.makedirs(BACKUP_DIR) raises OSError e, none when it succeeds -/
  makedirsExc : Option String
  /-- datetime.now() -/
  now : DateTime
  /-- some e when the try block raises before the dump completes
      (e.g. open(filepath, wb) fails), none otherwise -/
  openExc : Option String
  /-- return code of the docker exec pg_dump process -/
  dumpRet : Int
  /-- captured stderr of the dump process, utf-8 decoded -/
  dumpStderr : String
  /-- os.path.getsize(filepath) after a successful dump -/
  fileSize : Nat
deriving DecidableEq

/-- extension = dump if FORMAT == c else sql. -/
def extension : String := if FORMAT = "c" then "dump" else "sql"

/-- filename = f-string of DB_NAME, the timestamp, and the extension. -/
def filename (t : DateTime) : String :=
  DB_NAME ++ "_" ++ strftimeTimestamp t ++ "." ++ extension

/-- filepath = os.path.join(BACKUP_DIR, filename); BACKUP_DIR has no trailing
separator, so join inserts one slash. -/
def filepath (t : DateTime) : String := BACKUP_DIR ++ "/" ++ filename t

/-- The docker exec pg_dump argument list built by the script. -/
def cmd : List String :=
  ["docker", "exec", "-i", CONTAINER_NAME, "pg_dump", "-U", DB_USER, "-F", FORMAT, DB_NAME]

/-- The size report: size in bytes scaled to megabytes with two decimals.
CPython formats a float with round-half-even; the claims never inspect this
text, so the rounding is modelled by truncation to hundredths. -/
def formatSizeMB (bytes : Nat) : String :=
  let h := bytes * 100 / (1024 * 1024)
  decRepr (h / 100) ++ "." ++ pad2 (h % 100)

/-- Steps 2 to 4 of backup_database: build the timestamped filename, print the
start message, open the output file, run the dump, and report the outcome.
The whole risky region sits in one try/except whose handler prints the
exception, so the function never re-raises. -/
def backupMain (env : Env) : List Event :=
  match env.openExc with
  | some e =>
      [.print ("[INFO] Starting backup for database: \x27" ++ DB_NAME ++ "\x27..."),
       .print ("[EXCEPTION] An error occurred: " ++ e)]
  | none =>
      [.print ("[INFO] Starting backup for database: \x27" ++ DB_NAME ++ "\x27..."),
       .openFile (filepath env.now) "wb",
       .popen cmd none (some (filepath env.now))] ++
      (if env.dumpRet = 0 then
        [.print "[SUCCESS] Backup successful!",
         .print ("[SAVED] File: " ++ filepath env.now),
         .print ("[SIZE] " ++ formatSizeMB env.fileSize ++ " MB")]
      else
        [.print ("[ERROR] Backup failed with return code " ++ toString env.dumpRet)] ++
        (if env.dumpStderr ≠ "" then [.print ("[DETAILS] " ++ env.dumpStderr)] else [])) ++
      [.closeFile (filepath env.now)]

/-- backup_database: ensure the backup directory exists (aborting on a
directory-creation failure), then run the main dump sequence. -/
def backup_database (env : Env) : List Event :=
  if env.dirExists then backupMain env
  else
    match env.makedirsExc with
    | some e =>
        [.makedirs BACKUP_DIR, .print ("[ERROR] Failed to create directory: " ++ e)]
    | none =>
        [.makedirs BACKUP_DIR, .print ("[INFO] Created backup directory: " ++ BACKUP_DIR)] ++
        backupMain env

/-- Running the script as a program: backup_database contains no sys.exit and
lets no exception escape, so the interpreter always terminates with exit
status 0. -/
def script_main (env : Env) : List Event × Nat := (backup_database env, 0)

end BackupScript

/-! Embedding of scripts/restore_postgres_safe.py. -/

namespace RestoreScript

/-- Configuration constant of restore_postgres_safe.py. -/
def CONTAINER_NAME : String := "system-postgres"

/-- Configuration constant of restore_postgres_safe.py. -/
def DB_USER : String := "postgres"

/-- Configuration constant of restore_postgres_safe.py. -/
def TARGET_DB_NAME : String := "postgres"

/-- Configuration constant of restore_postgres_safe.py. -/
def BACKUP_FILE_PATH : String := "./backups/your_backup_file.dump"

/-- The psql argument list run_docker_sql builds for an SQL command and a
database (the db parameter defaults to postgres at both call sites). -/
def run_docker_sql_argv (sql_command : String) (db : String) : List String :=
  ["docker", "exec", CONTAINER_NAME, "psql", "-U", DB_USER, "-d", db, "-c", sql_command]

/-- The pure outcome of run_docker_sql given the observed subprocess result:
(True, empty) when psql exits 0, (False, stripped stderr) otherwise. -/
def run_docker_sql (result : ProcResult) : Bool × String :=
  if result.returncode ≠ 0 then (false, pyStrip result.stderr) else (true, "")

/-- Environment of one run of restore_database_safe: what the host filesystem
and the three external processes do. -/
structure Env where
  /-- os.path.exists(BACKUP_FILE_PATH) -/
  fileExists : Bool
  /-- result of the psql DROP DATABASE invocation -/
  dropRes : ProcResult
  /-- result of the psql CREATE DATABASE invocation -/
  createRes : ProcResult
  /-- some e when the final try block raises before pg_restore completes
      (e.g. open(BACKUP_FILE_PATH, rb) fails), none otherwise -/
  openExc : Option String
  /-- return code of the docker exec pg_restore process -/
  restoreRet : Int
  /-- captured stderr of the pg_restore process, utf-8 decoded -/
  restoreStderr : String
deriving DecidableEq

/-- The DROP statement, double-quoting the identifier. -/
def drop_sql : String := "DROP DATABASE IF EXISTS \"" ++ TARGET_DB_NAME ++ "\";"

/-- The CREATE statement, double-quoting the identifier. -/
def create_sql : String := "CREATE DATABASE \"" ++ TARGET_DB_NAME ++ "\";"

/-- The docker exec pg_restore argument list built by the script. -/
def restore_cmd : List String :=
  ["docker", "exec", "-i", CONTAINER_NAME, "pg_restore",
   "-U", DB_USER, "-d", TARGET_DB_NAME, "-v", "--no-owner", "--no-acl"]

/-- The 50-character separator row printed around the drop failure report. -/
def sepLine : String := String.mk (List.replicate 50 '=')

/-- Python list slicing ls[-n:]: the last n elements (all of them when the
list is shorter). -/
def lastLines (n : Nat) (l : List String) : List String := l.drop (l.length - n)

/-- The block printed when the DROP command fails: the framed diagnostic, a
suggestion chosen by searching the error text for the active-connections
pattern, and the abort notice. -/
def dropFailEvents (error_msg : String) : List Event :=
  [.print ("\n" ++ sepLine),
   .print "[ERROR] Failed to drop database.",
   .print ("[DETAILS] Postgres returned error: \n" ++ error_msg),
   .print sepLine] ++
  (if substrOccurs "accessed by other users".data error_msg.data then
    [.print "[SUGGESTION] There are active connections (e.g., Backend API, Navicat).",
     .print "[SUGGESTION] Please stop your services or close connections manually."]
  else
    [.print "[SUGGESTION] Check if the database name is valid."]) ++
  [.print "[RESULT] Restore aborted. No data was changed."]

/-- restore_database_safe: validate the dump file, drop the target database,
recreate it, and stream the file into pg_restore; the pair is the event trace
and the process exit status (sys.exit(1) on the failure paths, 0 otherwise). -/
def restore_database_safe (env : Env) : List Event × Nat :=
  if !env.fileExists then
    ([.print ("[ERROR] Backup file not found: " ++ BACKUP_FILE_PATH)], 1)
  else
    let intro : List Event :=
      [.print ("[INFO] Prepare to restore file: " ++ BACKUP_FILE_PATH),
       .print ("[INFO] Target Database: \x27" ++ TARGET_DB_NAME ++ "\x27"),
       .print ("[STEP 1/3] Attempting to DROP database \x27" ++ TARGET_DB_NAME ++ "\x27...")]
    let dropCall := Event.runProc (run_docker_sql_argv drop_sql "postgres")
    let dropOut := run_docker_sql env.dropRes
    if !dropOut.1 then
      (intro ++ [dropCall] ++ dropFailEvents dropOut.2, 1)
    else
      let createIntro : List Event :=
        [.print ("[STEP 2/3] Creating fresh database \x27" ++ TARGET_DB_NAME ++ "\x27...")]
      let createCall := Event.runProc (run_docker_sql_argv create_sql "postgres")
      let createOut := run_docker_sql env.createRes
      if !createOut.1 then
        (intro ++ [dropCall] ++ createIntro ++ [createCall] ++
         [.print ("[ERROR] Failed to create database: " ++ createOut.2)], 1)
      else
        let pre : List Event :=
          intro ++ [dropCall] ++ createIntro ++ [createCall] ++
          [.print "[STEP 3/3] Restoring data from dump file..."]
        match env.openExc with
        | some e => (pre ++ [.print ("[EXCEPTION] Critical error during restore: " ++ e)], 1)
        | none =>
            (pre ++
             [.openFile BACKUP_FILE_PATH "rb",
              .popen restore_cmd (some BACKUP_FILE_PATH) none] ++
             (if env.restoreRet = 0 then
               [.print "[SUCCESS] Database restore completed successfully!"]
             else
               [.print ("[INFO] Restore finished (exit code " ++ toString env.restoreRet ++ ").")] ++
               (if env.restoreStderr ≠ "" then
                 [.print ("[LOG] Last 5 lines of output:\n" ++
                   joinNL (lastLines 5 (splitlines env.restoreStderr)))]
               else [])) ++
             [.closeFile BACKUP_FILE_PATH], 0)

/-- Model of the external DROP DATABASE IF EXISTS semantics documented for
PostgreSQL: given the set of existing databases, the statement succeeds (exit
status 0) whether or not the named database exists; when it does not exist a
notice is emitted on stderr and the server state is unchanged, otherwise the
database is removed. -/
def psqlDropIfExists (existing : List String) (name : String) : ProcResult × List String :=
  if name ∈ existing then
    ({ returncode := 0, stdout := "DROP DATABASE", stderr := "" }, existing.erase name)
  else
    ({ returncode := 0, stdout := "DROP DATABASE",
       stderr := "NOTICE:  database \"" ++ name ++ "\" does not exist, skipping" }, existing)

/-- Double-quoting of an SQL identifier, as the script applies to the target
database name inside the DROP and CREATE statements. -/
def quoteIdent (s : String) : String := "\"" ++ s ++ "\""

end RestoreScript

/-! Helper lemmas: distinguishing strings that share no character at some
index, also under a symbolic right append. -/

theorem string_ne_of_get? (s t : String) (i : Nat) (c₁ c₂ : Char)
    (h₁ : s.data.get? i = some c₁) (h₂ : t.data.get? i = some c₂) (hc : c₁ ≠ c₂) :
    s ≠ t := by
  intro h
  rw [h] at h₁
  rw [h₁] at h₂
  exact hc (Option.some.inj h₂)

theorem append_left_ne (p x q : String) (i : Nat) (c₁ c₂ : Char)
    (hip : i < p.data.length)
    (h₁ : p.data.get? i = some c₁) (h₂ : q.data.get? i = some c₂) (hc : c₁ ≠ c₂) :
    p ++ x ≠ q := by
  refine string_ne_of_get? _ _ i c₁ c₂ ?_ h₂ hc
  rw [String.data_append, List.get?_append hip]
  exact h₁

theorem append_left_ne₂ (p x y q : String) (i : Nat) (c₁ c₂ : Char)
    (hip : i < p.data.length)
    (h₁ : p.data.get? i = some c₁) (h₂ : q.data.get? i = some c₂) (hc : c₁ ≠ c₂) :
    (p ++ x) ++ y ≠ q := by
  refine string_ne_of_get? _ _ i c₁ c₂ ?_ h₂ hc
  rw [String.data_append, String.data_append, List.append_assoc,
    List.get?_append (by simpa using Nat.lt_of_lt_of_le hip (Nat.le_refl _))]
  exact h₁

/-! Helper lemmas about the decimal rendering and padding used by the
timestamp model. -/

theorem digitChar_isDigit (m : Nat) (h : m < 10) : (Nat.digitChar m).isDigit = true := by
  have hfin : ∀ f : Fin 10, (Nat.digitChar f.1).isDigit = true := by decide
  exact hfin ⟨m, h⟩

theorem decDigitsAux_digits (fuel n : Nat) :
    ∀ c ∈ decDigitsAux fuel n, c.isDigit = true := by
  induction fuel generalizing n with
  | zero => intro c hc; simp [decDigitsAux] at hc
  | succ fuel ih =>
      intro c hc
      by_cases h : n = 0
      · simp [decDigitsAux, h] at hc
      · simp only [decDigitsAux, if_neg h, List.mem_append, List.mem_singleton] at hc
        rcases hc with hc | hc
        · exact ih _ _ hc
        · subst hc; exact digitChar_isDigit _ (Nat.mod_lt _ (by decide))

theorem decDigitsAux_length (fuel n k : Nat) (h : n < 10 ^ k) :
    (decDigitsAux fuel n).length ≤ k := by
  induction fuel generalizing n k with
  | zero => simp [decDigitsAux]
  | succ fuel ih =>
      by_cases h0 : n = 0
      · simp [decDigitsAux, h0]
      · rcases k with _ | k
        · simp at h; omega
        · have hdiv : n / 10 < 10 ^ k := by
            rw [Nat.div_lt_iff_lt_mul (by decide)]
            calc n < 10 ^ (k + 1) := h
              _ = 10 ^ k * 10 := by rw [pow_succ]
          have := ih (n / 10) k hdiv
          simp only [decDigitsAux, if_neg h0, List.length_append, List.length_singleton]
          omega

theorem decRepr_length (n k : Nat) (hk : 1 ≤ k) (h : n < 10 ^ k) :
    (decRepr n).length ≤ k := by
  by_cases h0 : n = 0
  · simp only [decRepr, if_pos h0]
    exact hk
  · simp only [decRepr, if_neg h0]
    exact decDigitsAux_length n n k h

theorem decRepr_digits (n : Nat) : ∀ c ∈ (decRepr n).data, c.isDigit = true := by
  by_cases h0 : n = 0
  · simp only [decRepr, if_pos h0]
    decide
  · simp only [decRepr, if_neg h0]
    exact decDigitsAux_digits n n

theorem string_length_eq_data (s : String) : s.length = s.data.length := rfl

theorem zfill_length (w : Nat) (s : String) (h : s.length ≤ w) : (zfill w s).length = w := by
  rw [zfill, String.length_append]
  have h1 : (String.mk (List.replicate (w - s.length) '0')).length = w - s.length := by
    rw [string_length_eq_data]
    exact List.length_replicate _ _
  omega

theorem zfill_digits (w : Nat) (s : String) (hs : ∀ c ∈ s.data, c.isDigit = true) :
    ∀ c ∈ (zfill w s).data, c.isDigit = true := by
  intro c hc
  simp only [zfill, String.data_append, List.mem_append] at hc
  rcases hc with hc | hc
  · have : c = '0' := List.eq_of_mem_replicate hc
    subst this; decide
  · exact hs c hc

theorem pad2_length (n : Nat) (h : n ≤ 99) : (pad2 n).length = 2 :=
  zfill_length 2 _ (decRepr_length n 2 (by omega) (by norm_num; omega))

theorem pad4_length (n : Nat) (h : n ≤ 9999) : (pad4 n).length = 4 :=
  zfill_length 4 _ (decRepr_length n 4 (by omega) (by norm_num; omega))

theorem pad2_digits (n : Nat) : ∀ c ∈ (pad2 n).data, c.isDigit = true :=
  zfill_digits 2 _ (decRepr_digits n)

theorem pad4_digits (n : Nat) : ∀ c ∈ (pad4 n).data, c.isDigit = true :=
  zfill_digits 4 _ (decRepr_digits n)

/-! The claims. -/

/-- C1: when the configured backup file path does not exist, the restore run
prints the error message and exits with status 1; its whole trace is that one
print, so no drop, create or restore subprocess is invoked. -/
theorem claim_C1_missing_file_aborts (env : RestoreScript.Env)
    (h : env.fileExists = false) :
    PgDocker.RestoreScript.restore_database_safe env =
      ([Event.print ("[ERROR] Backup file not found: " ++ RestoreScript.BACKUP_FILE_PATH)], 1) ∧
    ∀ e ∈ (PgDocker.RestoreScript.restore_database_safe env).1, e.isSubproc = false := by
  constructor
  · simp [RestoreScript.restore_database_safe, h]
  · intro e he
    simp [RestoreScript.restore_database_safe, h] at he
    simp [he, Event.isSubproc]

theorem claim_C1_witness :
    (⟨false, ⟨0, "", ""⟩, ⟨0, "", ""⟩, none, 0, ""⟩ : RestoreScript.Env).fileExists = false ∧
    (PgDocker.RestoreScript.restore_database_safe ⟨false, ⟨0, "", ""⟩, ⟨0, "", ""⟩, none, 0, ""⟩ =
      ([Event.print ("[ERROR] Backup file not found: " ++ RestoreScript.BACKUP_FILE_PATH)], 1) ∧
     ∀ e ∈ (PgDocker.RestoreScript.restore_database_safe
         ⟨false, ⟨0, "", ""⟩, ⟨0, "", ""⟩, none, 0, ""⟩).1, e.isSubproc = false) :=
  ⟨rfl, claim_C1_missing_file_aborts _ rfl⟩

/-- C4: a backup run whose dump command exits non-zero still terminates with
process exit status 0; the failure is reported only through the printed error
line carrying the return code, the captured stderr is printed when non-empty,
and no success message is printed. -/
theorem claim_C4_backup_exit_zero (env : BackupScript.Env)
    (hreach : env.dirExists = true ∨ env.makedirsExc = none)
    (hopen : env.openExc = none)
    (hret : env.dumpRet ≠ 0) :
    (PgDocker.BackupScript.script_main env).2 = 0 ∧
    Event.print ("[ERROR] Backup failed with return code " ++ toString env.dumpRet) ∈
      (PgDocker.BackupScript.script_main env).1 ∧
    (env.dumpStderr ≠ "" →
      Event.print ("[DETAILS] " ++ env.dumpStderr) ∈
        (PgDocker.BackupScript.script_main env).1) ∧
    Event.print "[SUCCESS] Backup successful!" ∉ (PgDocker.BackupScript.script_main env).1 := by
  have hA : ∀ x : String, "[SUCCESS] Backup successful!" ≠
      "[ERROR] Backup failed with return code " ++ x := fun x =>
    Ne.symm (append_left_ne _ x _ 1 'E' 'S' (by decide) (by decide) (by decide) (by decide))
  have hB : ∀ x : String, "[SUCCESS] Backup successful!" ≠
      "[DETAILS] " ++ x := fun x =>
    Ne.symm (append_left_ne _ x _ 1 'D' 'S' (by decide) (by decide) (by decide) (by decide))
  rcases hreach with hdir | hmk
  · by_cases hsd : env.dumpStderr = "" <;>
      simp +decide [PgDocker.BackupScript.script_main, PgDocker.BackupScript.backup_database,
        PgDocker.BackupScript.backupMain, hdir, hopen, hret, hsd, hA, hB]
  · by_cases hsd : env.dumpStderr = "" <;>
      by_cases hdir2 : env.dirExists = true <;>
      simp +decide [PgDocker.BackupScript.script_main, PgDocker.BackupScript.backup_database,
        PgDocker.BackupScript.backupMain, hdir2, hmk, hopen, hret, hsd, hA, hB]

theorem claim_C4_witness :
    ((⟨true, none, ⟨2026, 10, 12, 1, 2, 3⟩, none, 1, "pg_dump: error: connection failed\n", 0⟩ :
        BackupScript.Env).dirExists = true ∨
      (⟨true, none, ⟨2026, 10, 12, 1, 2, 3⟩, none, 1, "pg_dump: error: connection failed\n", 0⟩ :
        BackupScript.Env).makedirsExc = none) ∧
    ((PgDocker.BackupScript.script_main
        ⟨true, none, ⟨2026, 10, 12, 1, 2, 3⟩, none, 1,
          "pg_dump: error: connection failed\n", 0⟩).2 = 0 ∧
     Event.print ("[ERROR] Backup failed with return code " ++ toString (1 : Int)) ∈
       (PgDocker.BackupScript.script_main
         ⟨true, none, ⟨2026, 10, 12, 1, 2, 3⟩, none, 1,
           "pg_dump: error: connection failed\n", 0⟩).1 ∧
     ("pg_dump: error: connection failed\n" ≠ "" →
       Event.print ("[DETAILS] " ++ "pg_dump: error: connection failed\n") ∈
         (PgDocker.BackupScript.script_main
           ⟨true, none, ⟨2026, 10, 12, 1, 2, 3⟩, none, 1,
             "pg_dump: error: connection failed\n", 0⟩).1) ∧
     Event.print "[SUCCESS] Backup successful!" ∉
       (PgDocker.BackupScript.script_main
         ⟨true, none, ⟨2026, 10, 12, 1, 2, 3⟩, none, 1,
           "pg_dump: error: connection failed\n", 0⟩).1) :=
  ⟨Or.inl rfl, claim_C4_backup_exit_zero _ (Or.inl rfl) rfl (by decide)⟩

/-- C6: when the backup directory does not exist, the run's very first event
is the makedirs call, so creation precedes any dump invocation; when makedirs
raises, the run is exactly the attempt plus the error print, so it aborts
without invoking the dump; when makedirs succeeds and the try block does not
raise, the dump command is invoked afterwards. -/
theorem claim_C6_dir_creation (env : BackupScript.Env)
    (h : env.dirExists = false) :
    (PgDocker.BackupScript.backup_database env).head? =
      some (Event.makedirs BackupScript.BACKUP_DIR) ∧
    (∀ e, env.makedirsExc = some e →
      PgDocker.BackupScript.backup_database env =
        [Event.makedirs BackupScript.BACKUP_DIR,
         Event.print ("[ERROR] Failed to create directory: " ++ e)]) ∧
    (env.makedirsExc = none → env.openExc = none →
      Event.popen BackupScript.cmd none (some (PgDocker.BackupScript.filepath env.now)) ∈
        PgDocker.BackupScript.backup_database env) := by
  refine ⟨?_, ?_, ?_⟩
  · cases hmk : env.makedirsExc <;>
      simp [PgDocker.BackupScript.backup_database, PgDocker.BackupScript.backupMain, h, hmk]
  · intro e hmk
    simp [PgDocker.BackupScript.backup_database, h, hmk]
  · intro hmk hopen
    by_cases hr : env.dumpRet = 0 <;>
      by_cases hsd : env.dumpStderr = "" <;>
      simp [PgDocker.BackupScript.backup_database, PgDocker.BackupScript.backupMain,
        h, hmk, hopen, hr, hsd]

theorem claim_C6_witness :
    (⟨false, some "Permission denied", ⟨2026, 10, 12, 1, 2, 3⟩, none, 0, "", 0⟩ :
        BackupScript.Env).dirExists = false ∧
    ((PgDocker.BackupScript.backup_database
        ⟨false, some "Permission denied", ⟨2026, 10, 12, 1, 2, 3⟩, none, 0, "", 0⟩).head? =
      some (Event.makedirs BackupScript.BACKUP_DIR) ∧
     (∀ e, (⟨false, some "Permission denied", ⟨2026, 10, 12, 1, 2, 3⟩, none, 0, "", 0⟩ :
          BackupScript.Env).makedirsExc = some e →
       PgDocker.BackupScript.backup_database
         ⟨false, some "Permission denied", ⟨2026, 10, 12, 1, 2, 3⟩, none, 0, "", 0⟩ =
         [Event.makedirs BackupScript.BACKUP_DIR,
          Event.print ("[ERROR] Failed to create directory: " ++ e)]) ∧
     ((⟨false, some "Permission denied", ⟨2026, 10, 12, 1, 2, 3⟩, none, 0, "", 0⟩ :
          BackupScript.Env).makedirsExc = none →
       (⟨false, some "Permission denied", ⟨2026, 10, 12, 1, 2, 3⟩, none, 0, "", 0⟩ :
          BackupScript.Env).openExc = none →
       Event.popen BackupScript.cmd none
           (some (PgDocker.BackupScript.filepath ⟨2026, 10, 12, 1, 2, 3⟩)) ∈
         PgDocker.BackupScript.backup_database
           ⟨false, some "Permission denied", ⟨2026, 10, 12, 1, 2, 3⟩, none, 0, "", 0⟩)) :=
  ⟨rfl, claim_C6_dir_creation _ rfl⟩

/-- C8: when the dump exits non-zero, the output file handle close is the last
event of the run — nothing happens to the partial file afterwards — and the
whole trace contains no write, truncate, removal or rename of the file path,
and no success message. -/
theorem claim_C8_partial_file_untouched (env : BackupScript.Env)
    (hreach : env.dirExists = true ∨ env.makedirsExc = none)
    (hopen : env.openExc = none)
    (hret : env.dumpRet ≠ 0) :
    (PgDocker.BackupScript.backup_database env).getLast? =
      some (Event.closeFile (PgDocker.BackupScript.filepath env.now)) ∧
    (PgDocker.BackupScript.backup_database env).filter
      (Event.modifiesPath (PgDocker.BackupScript.filepath env.now)) = [] ∧
    Event.print "[SUCCESS] Backup successful!" ∉ PgDocker.BackupScript.backup_database env := by
  have hA : ∀ x : String, "[SUCCESS] Backup successful!" ≠
      "[ERROR] Backup failed with return code " ++ x := fun x =>
    Ne.symm (append_left_ne _ x _ 1 'E' 'S' (by decide) (by decide) (by decide) (by decide))
  have hB : ∀ x : String, "[SUCCESS] Backup successful!" ≠
      "[DETAILS] " ++ x := fun x =>
    Ne.symm (append_left_ne _ x _ 1 'D' 'S' (by decide) (by decide) (by decide) (by decide))
  rcases hreach with hdir | hmk
  · by_cases hsd : env.dumpStderr = "" <;>
      simp +decide [PgDocker.BackupScript.backup_database, PgDocker.BackupScript.backupMain,
        hdir, hopen, hret, hsd, hA, hB, Event.modifiesPath]
  · by_cases hsd : env.dumpStderr = "" <;>
      by_cases hdir2 : env.dirExists = true <;>
      simp +decide [PgDocker.BackupScript.backup_database, PgDocker.BackupScript.backupMain,
        hdir2, hmk, hopen, hret, hsd, hA, hB, Event.modifiesPath]

theorem claim_C8_witness :
    ((⟨true, none, ⟨2026, 10, 12, 1, 2, 3⟩, none, 1, "fatal\n", 0⟩ :
        BackupScript.Env).dirExists = true ∨
      (⟨true, none, ⟨2026, 10, 12, 1, 2, 3⟩, none, 1, "fatal\n", 0⟩ :
        BackupScript.Env).makedirsExc = none) ∧
    ((PgDocker.BackupScript.backup_database
        ⟨true, none, ⟨2026, 10, 12, 1, 2, 3⟩, none, 1, "fatal\n", 0⟩).getLast? =
      some (Event.closeFile (PgDocker.BackupScript.filepath ⟨2026, 10, 12, 1, 2, 3⟩)) ∧
     (PgDocker.BackupScript.backup_database
        ⟨true, none, ⟨2026, 10, 12, 1, 2, 3⟩, none, 1, "fatal\n", 0⟩).filter
       (Event.modifiesPath (PgDocker.BackupScript.filepath ⟨2026, 10, 12, 1, 2, 3⟩)) = [] ∧
     Event.print "[SUCCESS] Backup successful!" ∉
       PgDocker.BackupScript.backup_database
         ⟨true, none, ⟨2026, 10, 12, 1, 2, 3⟩, none, 1, "fatal\n", 0⟩) :=
  ⟨Or.inl rfl, claim_C8_partial_file_untouched _ (Or.inl rfl) rfl (by decide)⟩

/-- C9: the drop step issues DROP DATABASE IF EXISTS with the identifier
double-quoted; under the documented PostgreSQL semantics of IF EXISTS, a run
against a server on which the target database does not exist sees the drop
succeed (psql exits 0), proceeds to the create step, and never prints the
drop-failure report. -/
theorem claim_C9_drop_if_exists (dbs : List String) (env : RestoreScript.Env)
    (hne : RestoreScript.TARGET_DB_NAME ∉ dbs)
    (hfe : env.fileExists = true)
    (hdropRes : env.dropRes =
      (RestoreScript.psqlDropIfExists dbs RestoreScript.TARGET_DB_NAME).1) :
    RestoreScript.drop_sql =
      "DROP DATABASE IF EXISTS " ++
        RestoreScript.quoteIdent RestoreScript.TARGET_DB_NAME ++ ";" ∧
    PgDocker.RestoreScript.run_docker_sql env.dropRes = (true, "") ∧
    Event.runProc (RestoreScript.run_docker_sql_argv RestoreScript.create_sql "postgres") ∈
      (PgDocker.RestoreScript.restore_database_safe env).1 ∧
    Event.print "[ERROR] Failed to drop database." ∉
      (PgDocker.RestoreScript.restore_database_safe env).1 := by
  have hdr : PgDocker.RestoreScript.run_docker_sql env.dropRes = (true, "") := by
    rw [hdropRes]
    simp [RestoreScript.psqlDropIfExists, if_neg hne, PgDocker.RestoreScript.run_docker_sql]
  have h1 : ∀ x : String, "[ERROR] Failed to drop database." ≠
      "[INFO] Restore finished (exit code " ++ x ++ ")." := fun x =>
    Ne.symm (append_left_ne₂ _ x _ _ 1 'I' 'E' (by decide) (by decide) (by decide) (by decide))
  have h2 : ∀ x : String, "[ERROR] Failed to drop database." ≠
      "[LOG] Last 5 lines of output:\n" ++ x := fun x =>
    Ne.symm (append_left_ne _ x _ 1 'L' 'E' (by decide) (by decide) (by decide) (by decide))
  have h3 : ∀ x : String, "[ERROR] Failed to drop database." ≠
      "[ERROR] Failed to create database: " ++ x := fun x =>
    Ne.symm (append_left_ne _ x _ 18 'c' 'd' (by decide) (by decide) (by decide) (by decide))
  have h4 : ∀ x : String, "[ERROR] Failed to drop database." ≠
      "[EXCEPTION] Critical error during restore: " ++ x := fun x =>
    Ne.symm (append_left_ne _ x _ 2 'X' 'R' (by decide) (by decide) (by decide) (by decide))
  refine ⟨by decide, hdr, ?_, ?_⟩ <;>
    rcases hoe : env.openExc with _ | e <;>
      by_cases hc : (PgDocker.RestoreScript.run_docker_sql env.createRes).1 = true <;>
      by_cases hr : env.restoreRet = 0 <;>
      by_cases hsd : env.restoreStderr = "" <;>
      simp +decide [PgDocker.RestoreScript.restore_database_safe, hfe, hdr, hc, hoe, hr, hsd,
        h1, h2, h3, h4]

theorem claim_C9_witness :
    RestoreScript.TARGET_DB_NAME ∉ (["app_db", "template1"] : List String) ∧
    (⟨true, (RestoreScript.psqlDropIfExists ["app_db", "template1"]
          RestoreScript.TARGET_DB_NAME).1,
        ⟨0, "", ""⟩, none, 0, ""⟩ : RestoreScript.Env).fileExists = true ∧
    (RestoreScript.drop_sql =
       "DROP DATABASE IF EXISTS " ++
         RestoreScript.quoteIdent RestoreScript.TARGET_DB_NAME ++ ";" ∧
     PgDocker.RestoreScript.run_docker_sql
       (⟨true, (RestoreScript.psqlDropIfExists ["app_db", "template1"]
             RestoreScript.TARGET_DB_NAME).1,
           ⟨0, "", ""⟩, none, 0, ""⟩ : RestoreScript.Env).dropRes = (true, "") ∧
     Event.runProc (RestoreScript.run_docker_sql_argv RestoreScript.create_sql "postgres") ∈
       (PgDocker.RestoreScript.restore_database_safe
         ⟨true, (RestoreScript.psqlDropIfExists ["app_db", "template1"]
               RestoreScript.TARGET_DB_NAME).1,
             ⟨0, "", ""⟩, none, 0, ""⟩).1 ∧
     Event.print "[ERROR] Failed to drop database." ∉
       (PgDocker.RestoreScript.restore_database_safe
         ⟨true, (RestoreScript.psqlDropIfExists ["app_db", "template1"]
               RestoreScript.TARGET_DB_NAME).1,
             ⟨0, "", ""⟩, none, 0, ""⟩).1) :=
  ⟨by decide, rfl, claim_C9_drop_if_exists ["app_db", "template1"] _ (by decide) rfl rfl⟩

/-- C10: for every SQL command executed through run_docker_sql, the returned
pair is (true, empty) exactly when the psql process exits 0, and
(false, stripped stderr) otherwise. -/
theorem claim_C10_run_docker_sql_result (r : ProcResult) :
    (PgDocker.RestoreScript.run_docker_sql r = (true, "") ↔ r.returncode = 0) ∧
    (r.returncode ≠ 0 →
      PgDocker.RestoreScript.run_docker_sql r = (false, pyStrip r.stderr)) := by
  unfold PgDocker.RestoreScript.run_docker_sql
  by_cases h : r.returncode = 0 <;> simp [h]

/-- C5: for every valid wall-clock instant, the backup filename produced is
the database name, an underscore, a 15-character timestamp consisting of 8
digits, an underscore and 6 digits (so 14 digits in all, YYYYMMDD_HHMMSS),
a dot and the extension; the extension is dump exactly when the configured
format is c and sql otherwise. -/
theorem claim_C5_filename_shape (t : DateTime) (h : t.Valid) :
    PgDocker.BackupScript.filename t =
      BackupScript.DB_NAME ++ "_" ++ strftimeTimestamp t ++ "." ++ BackupScript.extension ∧
    BackupScript.extension = (if BackupScript.FORMAT = "c" then "dump" else "sql") ∧
    (strftimeTimestamp t).length = 15 ∧
    (∃ a b : List Char,
      (strftimeTimestamp t).data = a ++ '_' :: b ∧
      a.length = 8 ∧ b.length = 6 ∧
      (∀ c ∈ a, c.isDigit = true) ∧ (∀ c ∈ b, c.isDigit = true)) := by
  obtain ⟨hy1, hy2, hm1, hm2, hd1, hd2, hh, hmin, hsec⟩ := h
  have l4 : (pad4 t.year).length = 4 := pad4_length _ hy2
  have l2m : (pad2 t.month).length = 2 := pad2_length _ (by omega)
  have l2d : (pad2 t.day).length = 2 := pad2_length _ (by omega)
  have l2h : (pad2 t.hour).length = 2 := pad2_length _ (by omega)
  have l2mi : (pad2 t.minute).length = 2 := pad2_length _ (by omega)
  have l2s : (pad2 t.second).length = 2 := pad2_length _ (by omega)
  refine ⟨rfl, rfl, ?_, ?_⟩
  · simp only [strftimeTimestamp, String.length_append, l4, l2m, l2d, l2h, l2mi, l2s]
    decide
  · refine ⟨(pad4 t.year ++ pad2 t.month ++ pad2 t.day).data,
      (pad2 t.hour ++ pad2 t.minute ++ pad2 t.second).data, ?_, ?_, ?_, ?_, ?_⟩
    · have hu : ("_" : String).data = ['_'] := rfl
      simp only [strftimeTimestamp, String.data_append, hu, List.append_assoc,
        List.singleton_append, List.cons_append, List.nil_append]
    · rw [← string_length_eq_data, String.length_append, String.length_append,
        l4, l2m, l2d]
    · rw [← string_length_eq_data, String.length_append, String.length_append,
        l2h, l2mi, l2s]
    · intro c hc
      simp only [String.data_append, List.mem_append] at hc
      rcases hc with (hc | hc) | hc
      · exact pad4_digits _ _ hc
      · exact pad2_digits _ _ hc
      · exact pad2_digits _ _ hc
    · intro c hc
      simp only [String.data_append, List.mem_append] at hc
      rcases hc with (hc | hc) | hc
      · exact pad2_digits _ _ hc
      · exact pad2_digits _ _ hc
      · exact pad2_digits _ _ hc

theorem claim_C5_witness :
    (⟨2026, 10, 12, 3, 4, 5⟩ : DateTime).Valid ∧
    (PgDocker.BackupScript.filename ⟨2026, 10, 12, 3, 4, 5⟩ =
      BackupScript.DB_NAME ++ "_" ++ strftimeTimestamp ⟨2026, 10, 12, 3, 4, 5⟩ ++ "." ++
        BackupScript.extension ∧
     BackupScript.extension = (if BackupScript.FORMAT = "c" then "dump" else "sql") ∧
     (strftimeTimestamp ⟨2026, 10, 12, 3, 4, 5⟩).length = 15 ∧
     (∃ a b : List Char,
       (strftimeTimestamp ⟨2026, 10, 12, 3, 4, 5⟩).data = a ++ '_' :: b ∧
       a.length = 8 ∧ b.length = 6 ∧
       (∀ c ∈ a, c.isDigit = true) ∧ (∀ c ∈ b, c.isDigit = true))) :=
  ⟨by decide, claim_C5_filename_shape ⟨2026, 10, 12, 3, 4, 5⟩ (by decide)⟩

/-- C2: when the drop-database command fails, the restore run exits 1 and its
only subprocess invocation is the drop itself (no create, no restore); when
the stripped error text contains the accessed-by-other-users pattern, the
active-connections suggestion is printed before exiting. -/
theorem claim_C2_drop_failure_aborts (env : RestoreScript.Env)
    (hfe : env.fileExists = true) (hdrop : env.dropRes.returncode ≠ 0) :
    (PgDocker.RestoreScript.restore_database_safe env).2 = 1 ∧
    (PgDocker.RestoreScript.restore_database_safe env).1.filter Event.isSubproc =
      [Event.runProc
        (RestoreScript.run_docker_sql_argv RestoreScript.drop_sql "postgres")] ∧
    (substrOccurs "accessed by other users".data (pyStrip env.dropRes.stderr).data = true →
      Event.print "[SUGGESTION] There are active connections (e.g., Backend API, Navicat)." ∈
        (PgDocker.RestoreScript.restore_database_safe env).1) := by
  have hd : PgDocker.RestoreScript.run_docker_sql env.dropRes =
      (false, pyStrip env.dropRes.stderr) := by
    simp [PgDocker.RestoreScript.run_docker_sql, hdrop]
  by_cases hs :
      substrOccurs "accessed by other users".data (pyStrip env.dropRes.stderr).data = true <;>
    simp [PgDocker.RestoreScript.restore_database_safe, hfe, hd,
      RestoreScript.dropFailEvents, hs, Event.isSubproc, List.filter_append]

theorem claim_C2_witness :
    (⟨true, ⟨1, "", "ERROR:  database \x22postgres\x22 is being accessed by other users\n"⟩,
        ⟨0, "", ""⟩, none, 0, ""⟩ : RestoreScript.Env).fileExists = true ∧
    (⟨true, ⟨1, "", "ERROR:  database \x22postgres\x22 is being accessed by other users\n"⟩,
        ⟨0, "", ""⟩, none, 0, ""⟩ : RestoreScript.Env).dropRes.returncode ≠ 0 ∧
    ((PgDocker.RestoreScript.restore_database_safe
        ⟨true, ⟨1, "", "ERROR:  database \x22postgres\x22 is being accessed by other users\n"⟩,
          ⟨0, "", ""⟩, none, 0, ""⟩).2 = 1 ∧
     (PgDocker.RestoreScript.restore_database_safe
        ⟨true, ⟨1, "", "ERROR:  database \x22postgres\x22 is being accessed by other users\n"⟩,
          ⟨0, "", ""⟩, none, 0, ""⟩).1.filter Event.isSubproc =
       [Event.runProc
         (RestoreScript.run_docker_sql_argv RestoreScript.drop_sql "postgres")] ∧
     (substrOccurs "accessed by other users".data
        (pyStrip (⟨true,
            ⟨1, "", "ERROR:  database \x22postgres\x22 is being accessed by other users\n"⟩,
            ⟨0, "", ""⟩, none, 0, ""⟩ : RestoreScript.Env).dropRes.stderr).data = true →
       Event.print "[SUGGESTION] There are active connections (e.g., Backend API, Navicat)." ∈
         (PgDocker.RestoreScript.restore_database_safe
           ⟨true, ⟨1, "", "ERROR:  database \x22postgres\x22 is being accessed by other users\n"⟩,
             ⟨0, "", ""⟩, none, 0, ""⟩).1)) :=
  ⟨rfl, by decide, claim_C2_drop_failure_aborts _ rfl (by decide)⟩

/-- C3: in a run that reaches the final restore step, a non-zero pg_restore
exit code is not fatal: the process still exits 0, the informational finish
line is printed, and when the captured stderr is non-empty its last five
lines are printed for review. -/
theorem claim_C3_restore_exit_advisory (env : RestoreScript.Env)
    (hfe : env.fileExists = true)
    (hdrop : env.dropRes.returncode = 0)
    (hcreate : env.createRes.returncode = 0)
    (hopen : env.openExc = none)
    (hret : env.restoreRet ≠ 0) :
    (PgDocker.RestoreScript.restore_database_safe env).2 = 0 ∧
    Event.popen RestoreScript.restore_cmd (some RestoreScript.BACKUP_FILE_PATH) none ∈
      (PgDocker.RestoreScript.restore_database_safe env).1 ∧
    Event.print ("[INFO] Restore finished (exit code " ++ toString env.restoreRet ++ ").") ∈
      (PgDocker.RestoreScript.restore_database_safe env).1 ∧
    (env.restoreStderr ≠ "" →
      Event.print ("[LOG] Last 5 lines of output:\n" ++
          joinNL (RestoreScript.lastLines 5 (splitlines env.restoreStderr))) ∈
        (PgDocker.RestoreScript.restore_database_safe env).1) := by
  have hd : PgDocker.RestoreScript.run_docker_sql env.dropRes = (true, "") := by
    simp [PgDocker.RestoreScript.run_docker_sql, hdrop]
  have hc : PgDocker.RestoreScript.run_docker_sql env.createRes = (true, "") := by
    simp [PgDocker.RestoreScript.run_docker_sql, hcreate]
  by_cases hsd : env.restoreStderr = "" <;>
    simp [PgDocker.RestoreScript.restore_database_safe, hfe, hd, hc, hopen, hret, hsd]

theorem claim_C3_witness :
    (⟨true, ⟨0, "", ""⟩, ⟨0, "", ""⟩, none, 1, "w1\nw2\n"⟩ :
        RestoreScript.Env).fileExists = true ∧
    ((PgDocker.RestoreScript.restore_database_safe
        ⟨true, ⟨0, "", ""⟩, ⟨0, "", ""⟩, none, 1, "w1\nw2\n"⟩).2 = 0 ∧
     Event.popen RestoreScript.restore_cmd (some RestoreScript.BACKUP_FILE_PATH) none ∈
       (PgDocker.RestoreScript.restore_database_safe
         ⟨true, ⟨0, "", ""⟩, ⟨0, "", ""⟩, none, 1, "w1\nw2\n"⟩).1 ∧
     Event.print ("[INFO] Restore finished (exit code " ++ toString (1 : Int) ++ ").") ∈
       (PgDocker.RestoreScript.restore_database_safe
         ⟨true, ⟨0, "", ""⟩, ⟨0, "", ""⟩, none, 1, "w1\nw2\n"⟩).1 ∧
     ("w1\nw2\n" ≠ "" →
       Event.print ("[LOG] Last 5 lines of output:\n" ++
           joinNL (RestoreScript.lastLines 5 (splitlines "w1\nw2\n"))) ∈
         (PgDocker.RestoreScript.restore_database_safe
           ⟨true, ⟨0, "", ""⟩, ⟨0, "", ""⟩, none, 1, "w1\nw2\n"⟩).1)) :=
  ⟨rfl, claim_C3_restore_exit_advisory _ rfl rfl rfl rfl (by decide)⟩

/-- C7: in a run where both the drop and the create succeed and the dump file
opens, the pg_restore command is invoked with the dump file as standard input,
and its argument list contains the skip-ownership, skip-ACL and verbose flags,
whatever the dump contents (the argument list is a constant of the script). -/
theorem claim_C7_restore_flags (env : RestoreScript.Env)
    (hfe : env.fileExists = true)
    (hdrop : env.dropRes.returncode = 0)
    (hcreate : env.createRes.returncode = 0)
    (hopen : env.openExc = none) :
    Event.popen RestoreScript.restore_cmd (some RestoreScript.BACKUP_FILE_PATH) none ∈
      (PgDocker.RestoreScript.restore_database_safe env).1 ∧
    "--no-owner" ∈ RestoreScript.restore_cmd ∧
    "--no-acl" ∈ RestoreScript.restore_cmd ∧
    "-v" ∈ RestoreScript.restore_cmd := by
  have hd : PgDocker.RestoreScript.run_docker_sql env.dropRes = (true, "") := by
    simp [PgDocker.RestoreScript.run_docker_sql, hdrop]
  have hc : PgDocker.RestoreScript.run_docker_sql env.createRes = (true, "") := by
    simp [PgDocker.RestoreScript.run_docker_sql, hcreate]
  refine ⟨?_, by decide, by decide, by decide⟩
  simp [PgDocker.RestoreScript.restore_database_safe, hfe, hd, hc, hopen]

theorem claim_C7_witness :
    (⟨true, ⟨0, "", ""⟩, ⟨0, "", ""⟩, none, 0, ""⟩ : RestoreScript.Env).fileExists = true ∧
    (Event.popen RestoreScript.restore_cmd (some RestoreScript.BACKUP_FILE_PATH) none ∈
       (PgDocker.RestoreScript.restore_database_safe
         ⟨true, ⟨0, "", ""⟩, ⟨0, "", ""⟩, none, 0, ""⟩).1 ∧
     "--no-owner" ∈ RestoreScript.restore_cmd ∧
     "--no-acl" ∈ RestoreScript.restore_cmd ∧
     "-v" ∈ RestoreScript.restore_cmd) :=
  ⟨rfl, claim_C7_restore_flags _ rfl rfl rfl rfl⟩

theorem claim_C10_witness :
    (1 : Int) ≠ 0 ∧
    PgDocker.RestoreScript.run_docker_sql ⟨1, "", " boom "⟩ = (false, pyStrip " boom ") :=
  ⟨by decide, (claim_C10_run_docker_sql_result ⟨1, "", " boom "⟩).2 (by decide)⟩

end PgDocker
